import Mathlib

/-!
Shallow embedding of `website/lib/components/Tooltip.js` (a React tooltip
component built from the `@floating-ui/react` hook API) and proofs about it.

The component is compositional glue: the external hooks (`useFloating`,
`useHover`, `useFocus`, `useDismiss`, `useRole`, `useInteractions`,
`useDelayGroup`, `useTransitionStyles`) are modelled as opaque function
parameters (fields of `FloatingHooks`, or explicit function arguments), and
the component functions are embedded as pure Lean functions that record
exactly which options they hand to each hook and which values they render.
JavaScript objects that matter for the rendered output (props, style objects)
are modelled as association lists with JS object-literal semantics (a later
entry for a key overrides an earlier one); JS numbers are modelled as `ℚ`;
evaluation that can throw is modelled with `Except String`.
-/

set_option autoImplicit false

namespace FloatingTooltip

/-- A JavaScript value, restricted to the shapes that appear in the rendered
output of `Tooltip.js`: strings, numbers (modelled as `ℚ`), booleans and
plain objects. -/
inductive JsVal where
  | str (s : String)
  | num (q : ℚ)
  | boolean (b : Bool)
  | obj (fields : List (String × JsVal))

/-- A JavaScript object literal, as the list of its entries in source order.
A later entry for the same key overrides an earlier one, matching the
semantics of `{a: x, ...spread, b: y}`. -/
abbrev JsObj := List (String × JsVal)

/-- Key lookup in a `JsObj`: the LAST entry for the key wins, matching JS
object-literal / spread semantics. -/
def objGet (o : JsObj) (k : String) : Option JsVal :=
  match o with
  | [] => none
  | (k2, v) :: rest =>
    match objGet rest k with
    | some w => some w
    | none => if k2 == k then some v else none

/-- `{...v}` for a possibly-absent value: spreading an object contributes its
entries; spreading `undefined`/`null` (or a non-object primitive, which
contributes no string-named keys) contributes nothing. -/
def spreadVal : Option JsVal → JsObj
  | some (.obj fields) => fields
  | _ => []

/-- JS `Math.round`: rounds to the nearest integer, halves toward `+∞`. -/
def jsRound (q : ℚ) : ℤ := Int.floor (q + 1 / 2)

/-! ## The options objects `useTooltip` builds for the external hooks
(`Tooltip.js` lines 25–79). -/

/-- One entry of the `middleware` array passed to `useFloating`.  The `arrow`
middleware's `element` field is a React ref and is omitted from the model;
only the numeric/flag options appear. -/
inductive Middleware where
  | offsetMw (value : ℚ)
  | inlineMw
  | flipMw (fallbackAxisSideDirection : String) (crossAxis : Bool)
  | shiftMw (padding : ℚ)
  | arrowMw (padding : ℚ)

/-- The options object `useTooltip` passes to `useFloating`.  `S` is the
(abstract) type of open-state setter functions. -/
structure FloatingOptions (S : Type) where
  placement : String
  openState : Bool
  onOpenChange : S
  whileElementsMountedAutoUpdate : Bool
  middleware : List Middleware

/-- The options object passed to `useHover`.  `D` is the (abstract) type of
the group delay value supplied by `useDelayGroupContext`. -/
structure HoverOptions (D : Type) where
  move : Bool
  enabled : Bool
  restMs : Nat
  delay : D

/-- The options object passed to `useFocus`. -/
structure FocusOptions where
  enabled : Bool

/-- The options object passed to `useRole`. -/
structure RoleOptions where
  role : String

/-- The value read from `useDelayGroupContext()`. -/
structure DelayGroupContext (D : Type) where
  delay : D
  isInstantPhase : Bool
  currentId : String

/-- The options object accepted by `useTooltip` (its destructured parameter,
with the source's defaults).  `controlledOpen` and `setControlledOpen` are
the local names the source gives to the `open` and `onOpenChange` options;
`none` models a JS `undefined`/`null` option. -/
structure TooltipOptions (S : Type) where
  initialOpen : Bool := false
  placement : String := "top"
  controlledOpen : Option Bool := none
  setControlledOpen : Option S := none

/-- The externally supplied hooks that `useTooltip` composes, as opaque
functions.  `FD` is the return type of `useFloating`, `Ctx` the type of its
`.context`, `I` the return type of each interaction hook, and `P` the return
type of `useInteractions` (the prop getters). -/
structure FloatingHooks (D S FD Ctx I P : Type) where
  useFloating : FloatingOptions S → FD
  contextOf : FD → Ctx
  useHover : Ctx → HoverOptions D → I
  useFocus : Ctx → FocusOptions → I
  useDismiss : Ctx → I
  useRole : Ctx → RoleOptions → I
  useInteractions : List I → P

/-- The object `useTooltip` returns (the `open`/`setOpen` pair merged with
the `useInteractions` and `useFloating` results; the `arrowRef` is omitted
as it is an opaque React ref). -/
structure TooltipResult (S FD P : Type) where
  openState : Bool
  setOpen : S
  interactions : P
  data : FD

variable {D S FD Ctx I P : Type}

/-- `const open = controlledOpen ?? uncontrolledOpen` (line 37). -/
def openOf (uncontrolledOpen : Bool) (opts : TooltipOptions S) : Bool :=
  opts.controlledOpen.getD uncontrolledOpen

/-- `const setOpen = setControlledOpen ?? setUncontrolledOpen` (line 38). -/
def setOpenOf (setUncontrolledOpen : S) (opts : TooltipOptions S) : S :=
  opts.setControlledOpen.getD setUncontrolledOpen

/-- The `middleware` array literal (lines 45–57). -/
def middlewareOf (placement : String) : List Middleware :=
  [.offsetMw 10, .inlineMw,
   .flipMw "start" (placement.contains '-'),
   .shiftMw 5, .arrowMw 4]

/-- The options object literal passed to `useFloating` (lines 40–58). -/
def floatingOptionsOf (uncontrolledOpen : Bool) (setUncontrolledOpen : S)
    (opts : TooltipOptions S) : FloatingOptions S :=
  { placement := opts.placement
    openState := openOf uncontrolledOpen opts
    onOpenChange := setOpenOf setUncontrolledOpen opts
    whileElementsMountedAutoUpdate := true
    middleware := middlewareOf opts.placement }

/-- The options object literal passed to `useHover` (lines 62–67):
`enabled: controlledOpen == null`, `restMs: isInstantPhase ? 0 : 150`. -/
def hoverOptionsOf (dgc : DelayGroupContext D) (opts : TooltipOptions S) :
    HoverOptions D :=
  { move := false
    enabled := opts.controlledOpen.isNone
    restMs := if dgc.isInstantPhase then 0 else 150
    delay := dgc.delay }

/-- The options object literal passed to `useFocus` (lines 68–70). -/
def focusOptionsOf (opts : TooltipOptions S) : FocusOptions :=
  { enabled := opts.controlledOpen.isNone }

/-- The `useFloating(...)` call result (`data`, line 40). -/
def tooltipFloatingData (hooks : FloatingHooks D S FD Ctx I P)
    (uncontrolledOpen : Bool) (setUncontrolledOpen : S)
    (opts : TooltipOptions S) : FD :=
  hooks.useFloating (floatingOptionsOf uncontrolledOpen setUncontrolledOpen opts)

/-- `const context = data.context` (line 60). -/
def tooltipCtx (hooks : FloatingHooks D S FD Ctx I P)
    (uncontrolledOpen : Bool) (setUncontrolledOpen : S)
    (opts : TooltipOptions S) : Ctx :=
  hooks.contextOf (tooltipFloatingData hooks uncontrolledOpen setUncontrolledOpen opts)

/-- The body of `useTooltip` (lines 25–91).  `uncontrolledOpen` is the current
value of the internal `useState` cell (seeded with `initialOpen` on the first
render) and `setUncontrolledOpen` its setter; both are render inputs in this
embedding, and `useTooltip` itself never updates the state. -/
def useTooltip (hooks : FloatingHooks D S FD Ctx I P)
    (dgc : DelayGroupContext D)
    (uncontrolledOpen : Bool) (setUncontrolledOpen : S)
    (opts : TooltipOptions S) : TooltipResult S FD P :=
  let ctx := tooltipCtx hooks uncontrolledOpen setUncontrolledOpen opts
  { openState := openOf uncontrolledOpen opts
    setOpen := setOpenOf setUncontrolledOpen opts
    interactions := hooks.useInteractions
      [hooks.useHover ctx (hoverOptionsOf dgc opts),
       hooks.useFocus ctx (focusOptionsOf opts),
       hooks.useDismiss ctx,
       hooks.useRole ctx { role := "tooltip" }]
    data := tooltipFloatingData hooks uncontrolledOpen setUncontrolledOpen opts }

/-- The first render of `useTooltip`: the internal `useState` cell holds
`initialOpen` (line 32). -/
def useTooltipFirstRender (hooks : FloatingHooks D S FD Ctx I P)
    (dgc : DelayGroupContext D) (setUncontrolledOpen : S)
    (opts : TooltipOptions S) : TooltipResult S FD P :=
  useTooltip hooks dgc opts.initialOpen setUncontrolledOpen opts

/-! ## The context guard (`useTooltipContext`, lines 95–105). -/

/-- The message of the error thrown when no provider is present. -/
def tooltipMissingProviderMessage : String :=
  "Tooltip components must be wrapped in <Tooltip />"

/-- `useTooltipContext` (lines 95–105): reads the `TooltipContext` value
(`none` models the `null` default when no `<Tooltip />` provider is present,
since `context == null` is true exactly for `null`/`undefined`) and throws
if it is nullish, otherwise returns it unchanged. -/
def useTooltipContext {C : Type} (context : Option C) : Except String C :=
  match context with
  | none => .error tooltipMissingProviderMessage
  | some c => .ok c

/-! ## The components `Tooltip`, `TooltipTrigger`, `TooltipContent`
(lines 107–219). -/

/-- The consumer-side view of the tooltip context value, i.e. the fields of
the `useTooltip` result that `TooltipTrigger` and `TooltipContent` read.
The prop getters (from `useInteractions`) and the floating context, strategy
and coordinates (from `useFloating`) are opaque outputs of the external
hooks.  `FC` is the type of `data.context`. -/
structure TooltipCtxVal (FC : Type) where
  openState : Bool
  floatingContext : FC
  strategy : String
  x : Option ℚ
  y : Option ℚ
  getReferenceProps : JsObj → JsObj
  getFloatingProps : JsObj → JsObj

/-- The `children` value handed to `TooltipTrigger`: JS `null`/`undefined`,
a non-element primitive (text), or a valid React element carrying a ref and
a props object. -/
inductive ReactNode where
  | nullish
  | text (s : String)
  | element (ref : Option JsVal) (props : JsObj)

/-- `const childrenRef = children.ref` (line 124).  Property access on
`undefined`/`null` throws a `TypeError`; on a primitive it yields
`undefined`; on an element it yields the element's ref. -/
def childrenRefOf : ReactNode → Except String (Option JsVal)
  | .nullish => .error "TypeError: Cannot read properties of undefined (reading 'ref')"
  | .text _ => .ok none
  | .element r _ => .ok r

/-- `React.isValidElement(children)` (line 132). -/
def isValidElement : ReactNode → Bool
  | .element _ _ => true
  | _ => false

/-- `children.props` (empty for non-elements, which have none to spread). -/
def nodeProps : ReactNode → JsObj
  | .element _ p => p
  | _ => []

/-- What a render of `TooltipTrigger` produces: a clone of the child element
(with its final merged props) or the fallback `<button>` (with its
attributes). -/
inductive TriggerRender where
  | cloned (finalProps : JsObj)
  | button (attrs : JsObj)

/-- The `'data-state': context.open ? 'open' : 'closed'` entry
(lines 139 and 148). -/
def dataStateEntry (openState : Bool) : String × JsVal :=
  ("data-state", .str (if openState then "open" else "closed"))

/-- The object literal `{ref, ...props, ...children.props, 'data-state': …}`
passed to `getReferenceProps` in the `asChild` branch (lines 135–140). -/
def triggerCloneArg {FC : Type} (context : TooltipCtxVal FC)
    (children : ReactNode) (props : JsObj) (refVal : JsVal) : JsObj :=
  [("ref", refVal)] ++ props ++ nodeProps children ++
    [dataStateEntry context.openState]

/-- The attributes of the fallback `<button>` (lines 144–153): `ref`,
`data-state`, then the spread of `getReferenceProps(props)`. -/
def triggerButtonAttrs {FC : Type} (context : TooltipCtxVal FC)
    (props : JsObj) (refVal : JsVal) : JsObj :=
  [("ref", refVal), dataStateEntry context.openState] ++
    context.getReferenceProps props

/-- The body of `TooltipTrigger` (lines 118–155).  `refVal` stands for the
merged ref produced by `useMergeRefs` (opaque).  In the `asChild` branch the
rendered element's props follow `React.cloneElement` semantics: the child's
own props overridden by the props returned from `getReferenceProps`. -/
def TooltipTrigger {FC : Type} (ctxOpt : Option (TooltipCtxVal FC))
    (children : ReactNode) (asChild : Bool) (props : JsObj) (refVal : JsVal) :
    Except String TriggerRender := do
  let context ← useTooltipContext ctxOpt
  let _childrenRef ← childrenRefOf children
  if asChild && isValidElement children then
    pure (.cloned (nodeProps children ++
      context.getReferenceProps (triggerCloneArg context children props refVal)))
  else
    pure (.button (triggerButtonAttrs context props refVal))

/-- The `Tooltip` wrapper component (lines 107–116): it runs `useTooltip` on
its options and provides the result as the context value for its children. -/
structure ProviderRender (S FD P : Type) where
  contextValue : TooltipResult S FD P
  children : ReactNode

/-- `Tooltip` (lines 107–116); its body contains no throw site. -/
def Tooltip (hooks : FloatingHooks D S FD Ctx I P)
    (dgc : DelayGroupContext D)
    (uncontrolledOpen : Bool) (setUncontrolledOpen : S)
    (options : TooltipOptions S) (children : ReactNode) :
    Except String (ProviderRender S FD P) :=
  .ok { contextValue := useTooltip hooks dgc uncontrolledOpen setUncontrolledOpen options
        children := children }

/-- The `duration` option of `useTransitionStyles` (lines 177–179). -/
structure Duration where
  openMs : Nat
  closeMs : Nat

/-- The options object passed to `useTransitionStyles` (lines 176–184). -/
structure TransitionOptions where
  duration : Duration
  initial : JsObj

/-- The `useTransitionStyles` result that `TooltipContent` reads. -/
structure TransitionResult where
  isMounted : Bool
  styles : JsObj

/-- `duration: isInstantPhase ? {open: 100, close: id === currentId ? 150 : 50}
: {open: 300, close: 150}` (lines 177–179). -/
def transitionDurationOf (isInstantPhase : Bool) (id currentId : String) :
    Duration :=
  if isInstantPhase then
    { openMs := 100, closeMs := if id == currentId then 150 else 50 }
  else
    { openMs := 300, closeMs := 150 }

/-- `initial: {opacity: 0, transform: 'scale(0.95)'}` (lines 180–183). -/
def transitionInitial : JsObj :=
  [("opacity", .num 0), ("transform", .str "scale(0.95)")]

/-- The options object literal passed to `useTransitionStyles`
(lines 176–185). -/
def transitionOptionsOf (isInstantPhase : Bool) (id currentId : String) :
    TransitionOptions :=
  { duration := transitionDurationOf isInstantPhase id currentId
    initial := transitionInitial }

/-- The `classNames(...)` call (lines 192–196): the two constant class
strings joined with the caller's `className` when it is a non-empty string
(falsy values are skipped by `classnames`). -/
def classNamesOf (className : Option JsVal) : String :=
  let base := "bg-gray-600 shadow-lg text-white" ++ " " ++
    "rounded p-2 text-sm pointer-events-none cursor-default"
  match className with
  | some (.str s) => if s.isEmpty then base else base ++ " " ++ s
  | _ => base

/-- The first five entries of the `style` object literal (lines 197–202):
`position`, `top`, `left`, `width`, `maxWidth`. -/
def baseContentStyle (strategy : String) (x y : Option ℚ) : JsObj :=
  [("position", .str strategy),
   ("top", .num ((jsRound (y.getD 0) : ℤ) : ℚ)),
   ("left", .num ((jsRound (x.getD 0) : ℤ) : ℚ)),
   ("width", .str "max-content"),
   ("maxWidth", .str "min(calc(100vw - 10px), 25rem)")]

/-- The full `style` object literal (lines 197–205): the base entries,
then `...props.style`, then `...styles` (the transition styles), later
entries overriding earlier ones. -/
def tooltipContentStyle (strategy : String) (x y : Option ℚ)
    (propsStyle styles : JsObj) : JsObj :=
  baseContentStyle strategy x y ++ propsStyle ++ styles

/-- The rendered `<div>`'s attributes (lines 190–207): `className` and
`style`, then the spread of `getFloatingProps(props)` (which, being last,
overrides on key collision).  The opaque ref and the children (including the
`FloatingArrow`) are not part of the attribute object. -/
def tooltipContentDivAttrs {FC : Type} (context : TooltipCtxVal FC)
    (props : JsObj) (styles : JsObj) : JsObj :=
  [("className", .str (classNamesOf (objGet props "className"))),
   ("style", .obj (tooltipContentStyle context.strategy context.x context.y
     (spreadVal (objGet props "style")) styles))] ++
  context.getFloatingProps props

/-- What a render of `TooltipContent` produces: the id it hands to
`useDelayGroup`, the options it hands to `useTransitionStyles`, and the
rendered `<div>` attributes (`none` when `isMounted` is false and nothing is
rendered inside the portal). -/
structure ContentRender where
  delayGroupId : String
  transitionOpts : TransitionOptions
  rendered : Option JsObj

/-- The body of `TooltipContent` (lines 157–219).  `uTS` is the opaque
`useTransitionStyles` hook; `id` is the value of React's `useId()`. -/
def TooltipContent {FC : Type} (uTS : FC → TransitionOptions → TransitionResult)
    (dgc : DelayGroupContext D) (id : String)
    (ctxOpt : Option (TooltipCtxVal FC)) (props : JsObj) :
    Except String ContentRender := do
  let context ← useTooltipContext ctxOpt
  let tOpts := transitionOptionsOf dgc.isInstantPhase id dgc.currentId
  let tr := uTS context.floatingContext tOpts
  pure { delayGroupId := id
         transitionOpts := tOpts
         rendered := if tr.isMounted then
             some (tooltipContentDivAttrs context props tr.styles)
           else none }

/-! ## Helper definitions for stating and instantiating the theorems. -/

/-- Extracts the `data-state` attribute of a `TooltipTrigger` render. -/
def triggerDataState : TriggerRender → Option JsVal
  | .cloned finalProps => objGet finalProps "data-state"
  | .button attrs => objGet attrs "data-state"

/-- Whether a `TooltipTrigger` render took the `<button>` fallback branch. -/
def isButtonRender : TriggerRender → Bool
  | .button _ => true
  | .cloned _ => false

/-- Extracts the `style` attribute of a mounted `TooltipContent` render. -/
def renderedStyle (r : ContentRender) : Option JsVal :=
  r.rendered.bind (fun attrs => objGet attrs "style")

/-- A trivial concrete instantiation of the external hooks (all opaque
results collapsed to `Unit`, setters represented by `String` labels), used
to evaluate the component at concrete inputs. -/
def unitHooks : FloatingHooks Unit String Unit Unit Unit Unit :=
  { useFloating := fun _ => ()
    contextOf := fun _ => ()
    useHover := fun _ _ => ()
    useFocus := fun _ _ => ()
    useDismiss := fun _ => ()
    useRole := fun _ _ => ()
    useInteractions := fun _ => () }

/-- A concrete tooltip context value (strategy `absolute`, coordinates
`x = 7/2`, `y = 5/4`) with chosen prop getters, used to evaluate the
components at concrete inputs. -/
def sampleCtx (b : Bool) (gRP gFP : JsObj → JsObj) : TooltipCtxVal Unit :=
  { openState := b
    floatingContext := ()
    strategy := "absolute"
    x := some (7 / 2)
    y := some (5 / 4)
    getReferenceProps := gRP
    getFloatingProps := gFP }

/-- A concrete `useTransitionStyles` behaviour: always mounted, no
transition styles. -/
def alwaysMounted : Unit → TransitionOptions → TransitionResult :=
  fun _ _ => { isMounted := true, styles := [] }

/-- A concrete `DelayGroupContext` over `Unit` delays. -/
def sampleDgc : DelayGroupContext Unit :=
  { delay := (), isInstantPhase := false, currentId := "g" }

/-- A concrete tooltip context whose `getReferenceProps` is the identity and
whose `getFloatingProps` returns no props. -/
def plainCtx : TooltipCtxVal Unit :=
  sampleCtx false (fun o => o) (fun _ => [])

/-- A concrete open tooltip context whose prop getters are identities. -/
def openCtx : TooltipCtxVal Unit :=
  sampleCtx true (fun o => o) (fun o => o)

/-- C1: `useTooltipContext` throws the error
'Tooltip components must be wrapped in <Tooltip />' if and only if the
context value is null, and returns every non-null context value unchanged. -/
theorem useTooltipContext_error_iff_null {C : Type} (context : Option C) :
    (useTooltipContext context = .error tooltipMissingProviderMessage ↔
      context = none)
    ∧ ∀ c : C, useTooltipContext (some c) = .ok c := by
  refine ⟨?_, fun c => rfl⟩
  cases context <;> simp [useTooltipContext]

/-! ## Lookup lemmas for the JS object model. -/

theorem objGet_nil (k : String) : objGet [] k = none := rfl

theorem objGet_cons (k2 : String) (v : JsVal) (rest : JsObj) (k : String) :
    objGet ((k2, v) :: rest) k =
      match objGet rest k with
      | some w => some w
      | none => if k2 == k then some v else none := rfl

theorem objGet_append_right (a b : JsObj) (k : String) (v : JsVal)
    (h : objGet b k = some v) : objGet (a ++ b) k = some v := by
  induction a with
  | nil => simpa using h
  | cons hd tl ih =>
    obtain ⟨k2, w⟩ := hd
    simp only [List.cons_append, objGet_cons, ih]

theorem objGet_append_left (a b : JsObj) (k : String)
    (h : objGet b k = none) : objGet (a ++ b) k = objGet a k := by
  induction a with
  | nil => simpa using h
  | cons hd tl ih =>
    obtain ⟨k2, w⟩ := hd
    simp only [List.cons_append, objGet_cons, ih]

/-- C2: `useTooltip` is pure composition.  The interaction prop getters it
returns are exactly the `useInteractions` result on the outputs of the
external `useHover` / `useFocus` / `useDismiss` / `useRole` hooks, for every
behaviour of those hooks; the returned `open` is just the nullish-coalescing
of the controlled option with the internal state value, so the component
computes no open/close transition, hover delay or dismissal decision of its
own; and the open flag and `onOpenChange` callback handed to the external
`useFloating` (through which the hooks drive every transition) are exactly
the returned `open`/`setOpen` pair. -/
theorem useTooltip_delegates_to_hooks (hooks : FloatingHooks D S FD Ctx I P)
    (dgc : DelayGroupContext D) (u : Bool) (su : S) (opts : TooltipOptions S) :
    ((useTooltip hooks dgc u su opts).interactions
      = hooks.useInteractions
          [hooks.useHover (tooltipCtx hooks u su opts) (hoverOptionsOf dgc opts),
           hooks.useFocus (tooltipCtx hooks u su opts) (focusOptionsOf opts),
           hooks.useDismiss (tooltipCtx hooks u su opts),
           hooks.useRole (tooltipCtx hooks u su opts) { role := "tooltip" }])
    ∧ (useTooltip hooks dgc u su opts).openState = opts.controlledOpen.getD u
    ∧ (useTooltip hooks dgc u su opts).setOpen = opts.setControlledOpen.getD su
    ∧ (floatingOptionsOf u su opts).openState = (useTooltip hooks dgc u su opts).openState
    ∧ (floatingOptionsOf u su opts).onOpenChange = (useTooltip hooks dgc u su opts).setOpen :=
  ⟨rfl, rfl, rfl, rfl, rfl⟩

/-- C3: `useTooltip` wires exactly `useFloating` (whose result it returns as
`data`) and the four interaction hooks, passed to `useInteractions` in the
order hover, focus, dismiss, role; and `TooltipContent` hands `useDelayGroup`
its `useId` value and hands `useTransitionStyles` the transition options
built from the delay-group phase — for every behaviour of the external
hooks, so no other interaction behaviour originates in the component. -/
theorem useTooltip_hook_wiring {FC : Type} (hooks : FloatingHooks D S FD Ctx I P)
    (dgc : DelayGroupContext D) (u : Bool) (su : S) (opts : TooltipOptions S)
    (uTS : FC → TransitionOptions → TransitionResult)
    (dgc2 : DelayGroupContext D) (id : String)
    (context : TooltipCtxVal FC) (props : JsObj) :
    ((useTooltip hooks dgc u su opts).data
      = hooks.useFloating (floatingOptionsOf u su opts))
    ∧ ((useTooltip hooks dgc u su opts).interactions
      = hooks.useInteractions
          [hooks.useHover (tooltipCtx hooks u su opts) (hoverOptionsOf dgc opts),
           hooks.useFocus (tooltipCtx hooks u su opts) (focusOptionsOf opts),
           hooks.useDismiss (tooltipCtx hooks u su opts),
           hooks.useRole (tooltipCtx hooks u su opts) { role := "tooltip" }])
    ∧ ((TooltipContent uTS dgc2 id (some context) props).map ContentRender.delayGroupId
        = .ok id)
    ∧ ((TooltipContent uTS dgc2 id (some context) props).map ContentRender.transitionOpts
        = .ok (transitionOptionsOf dgc2.isInstantPhase id dgc2.currentId)) :=
  ⟨rfl, rfl, rfl, rfl⟩

/-! ## Data-state lookups in the two `TooltipTrigger` branches. -/

theorem triggerCloneArg_data_state {FC : Type} (context : TooltipCtxVal FC)
    (children : ReactNode) (props : JsObj) (refVal : JsVal) :
    objGet (triggerCloneArg context children props refVal) "data-state"
      = some (.str (if context.openState then "open" else "closed")) := by
  unfold triggerCloneArg
  apply objGet_append_right
  rfl

theorem triggerButtonAttrs_data_state {FC : Type} (context : TooltipCtxVal FC)
    (props : JsObj) (refVal : JsVal)
    (hpres : ∀ o : JsObj,
      objGet (context.getReferenceProps o) "data-state" = objGet o "data-state")
    (hprops : objGet props "data-state" = none) :
    objGet (triggerButtonAttrs context props refVal) "data-state"
      = some (.str (if context.openState then "open" else "closed")) := by
  unfold triggerButtonAttrs
  rw [objGet_append_left _ _ _ ((hpres props).trans hprops)]
  rfl

/-- C4 (amended): the provider guard and the unconditional `children.ref`
access in `TooltipTrigger` are the only failure points of the component
code: for every render in which the context value is non-null and
`TooltipTrigger`'s children is not `null`/`undefined`, evaluating `Tooltip`
(which runs `useTooltip`, itself total by construction), `TooltipTrigger`
and `TooltipContent` raises no error. -/
theorem tooltip_components_total_of_context {FC : Type}
    (hooks : FloatingHooks D S FD Ctx I P) (dgc : DelayGroupContext D)
    (u : Bool) (su : S) (opts : TooltipOptions S) (children ch2 : ReactNode)
    (context : TooltipCtxVal FC) (asChild : Bool) (props : JsObj) (refVal : JsVal)
    (uTS : FC → TransitionOptions → TransitionResult)
    (dgc2 : DelayGroupContext D) (id : String) (props2 : JsObj)
    (hch : ch2 ≠ ReactNode.nullish) :
    (∃ r, Tooltip hooks dgc u su opts children = .ok r)
    ∧ (∃ r, TooltipTrigger (some context) ch2 asChild props refVal = .ok r)
    ∧ (∃ r, TooltipContent uTS dgc2 id (some context) props2 = .ok r) := by
  refine ⟨⟨_, rfl⟩, ?_, ⟨_, rfl⟩⟩
  cases ch2 with
  | nullish => exact absurd rfl hch
  | text s => cases asChild <;> exact ⟨_, rfl⟩
  | element r p => cases asChild <;> exact ⟨_, rfl⟩

/-- Witness for C4's theorem at concrete inputs. -/
theorem tooltip_components_total_witness :
    (∃ r, Tooltip unitHooks sampleDgc false "su" {} (.text "hi") = .ok r)
    ∧ (∃ r, TooltipTrigger (some plainCtx) (.text "hi") false [] (.str "r") = .ok r)
    ∧ (∃ r, TooltipContent alwaysMounted sampleDgc "id0" (some plainCtx) [] = .ok r) :=
  tooltip_components_total_of_context unitHooks sampleDgc false "su" {}
    (.text "hi") (.text "hi") plainCtx false [] (.str "r")
    alwaysMounted sampleDgc "id0" [] (fun h => ReactNode.noConfusion h)

/-- C4 counterexample: with a non-null context value but `undefined`
children, `TooltipTrigger` still throws — the `children.ref` access on
line 124 — so the provider guard is not the single failure point. -/
theorem TooltipTrigger_throws_on_nullish_children :
    TooltipTrigger (some plainCtx) .nullish false [] (.str "r")
      = .error "TypeError: Cannot read properties of undefined (reading 'ref')" :=
  rfl

/-- C5 (amended): provided the caller's `props.style`, the transition styles
and the `getFloatingProps` output leave the `position`/`top`/`left`/`style`
keys alone, the mounted div's `style` attribute is exactly the style object
literal, whose `position` entry is exactly the `strategy` returned by
`useFloating` and whose `top`/`left` entries are determined by the `y`/`x`
coordinates returned by `useFloating` alone. -/
theorem TooltipContent_consumes_position {FC : Type} (context : TooltipCtxVal FC)
    (props styles : JsObj)
    (hgfp : objGet (context.getFloatingProps props) "style" = none)
    (hp1 : objGet (spreadVal (objGet props "style")) "position" = none)
    (ht1 : objGet (spreadVal (objGet props "style")) "top" = none)
    (hl1 : objGet (spreadVal (objGet props "style")) "left" = none)
    (hp2 : objGet styles "position" = none)
    (ht2 : objGet styles "top" = none)
    (hl2 : objGet styles "left" = none) :
    (objGet (tooltipContentDivAttrs context props styles) "style"
      = some (.obj (tooltipContentStyle context.strategy context.x context.y
          (spreadVal (objGet props "style")) styles)))
    ∧ (objGet (tooltipContentStyle context.strategy context.x context.y
        (spreadVal (objGet props "style")) styles) "position"
      = some (.str context.strategy))
    ∧ (objGet (tooltipContentStyle context.strategy context.x context.y
        (spreadVal (objGet props "style")) styles) "top"
      = some (.num ((jsRound (context.y.getD 0) : ℤ) : ℚ)))
    ∧ (objGet (tooltipContentStyle context.strategy context.x context.y
        (spreadVal (objGet props "style")) styles) "left"
      = some (.num ((jsRound (context.x.getD 0) : ℤ) : ℚ))) := by
  refine ⟨?_, ?_, ?_, ?_⟩
  · unfold tooltipContentDivAttrs
    rw [objGet_append_left _ _ _ hgfp]
    rfl
  · unfold tooltipContentStyle
    rw [objGet_append_left _ _ _ hp2, objGet_append_left _ _ _ hp1]
    rfl
  · unfold tooltipContentStyle
    rw [objGet_append_left _ _ _ ht2, objGet_append_left _ _ _ ht1]
    rfl
  · unfold tooltipContentStyle
    rw [objGet_append_left _ _ _ hl2, objGet_append_left _ _ _ hl1]
    rfl

/-- Witness for C5's theorem at concrete inputs. -/
theorem TooltipContent_consumes_position_witness :
    objGet (tooltipContentStyle plainCtx.strategy plainCtx.x plainCtx.y
        (spreadVal (objGet [] "style")) []) "position"
      = some (.str plainCtx.strategy) :=
  (TooltipContent_consumes_position plainCtx [] [] rfl rfl rfl rfl rfl rfl rfl).2.1

/-- C5 counterexample: a caller-supplied `props.style` of
`{position: 'fixed'}` is spread into the style literal after the base
entries, so the rendered `position` is `'fixed'`, not the `strategy`
(`'absolute'`) returned by `useFloating`. -/
theorem TooltipContent_position_overridden :
    ((TooltipContent alwaysMounted sampleDgc "id1" (some plainCtx)
        [("style", .obj [("position", .str "fixed")])]).map renderedStyle
      = .ok (some (.obj (tooltipContentStyle "absolute" (some (7 / 2)) (some (5 / 4))
          [("position", .str "fixed")] []))))
    ∧ (objGet (tooltipContentStyle "absolute" (some (7 / 2)) (some (5 / 4))
        [("position", .str "fixed")] []) "position" = some (.str "fixed"))
    ∧ plainCtx.strategy = "absolute"
    ∧ ("fixed" : String) ≠ "absolute" :=
  ⟨rfl, rfl, rfl, by decide⟩

/-- C6 (amended): hover and focus are enabled iff the controlled `open`
option is nullish; the returned `open` is the controlled value when one is
present and otherwise the internal state (seeded with `initialOpen`, whose
default is `false`); and the returned `setOpen` is the caller's
`onOpenChange` when one is present and otherwise the internal setter — the
two nullish-coalescings being independent of each other. -/
theorem useTooltip_mode_selection (hooks : FloatingHooks D S FD Ctx I P)
    (dgc : DelayGroupContext D) (u : Bool) (su : S) (opts : TooltipOptions S) :
    ((hoverOptionsOf dgc opts).enabled = opts.controlledOpen.isNone)
    ∧ ((focusOptionsOf opts).enabled = opts.controlledOpen.isNone)
    ∧ ((useTooltip hooks dgc u su opts).openState = opts.controlledOpen.getD u)
    ∧ ((useTooltip hooks dgc u su opts).setOpen = opts.setControlledOpen.getD su)
    ∧ ((useTooltipFirstRender hooks dgc su
        { opts with controlledOpen := none }).openState = opts.initialOpen)
    ∧ (({} : TooltipOptions S).initialOpen = false) :=
  ⟨rfl, rfl, rfl, rfl, rfl, rfl⟩

/-- C6 counterexample: with the `open` option absent (uncontrolled mode, per
the claim) but an `onOpenChange` supplied, the returned `setOpen` is the
caller's `onOpenChange` callback, not the internal `useState` setter the
claim requires in uncontrolled mode. -/
theorem useTooltip_mode_coupling_false :
    ((useTooltip unitHooks sampleDgc false "setUncontrolledOpen"
        { controlledOpen := none, setControlledOpen := some "onOpenChange" }).setOpen
      = "onOpenChange")
    ∧ (({ controlledOpen := none, setControlledOpen := some "onOpenChange" } :
        TooltipOptions String).controlledOpen = none)
    ∧ ("onOpenChange" : String) ≠ "setUncontrolledOpen" :=
  ⟨rfl, rfl, by decide⟩

/-- C7 (amended): for every render of `TooltipTrigger` with non-nullish
children, in which `getReferenceProps` preserves the `data-state` entry of
its argument and the caller passes no `data-state` prop of their own, the
rendered element (cloned child or fallback button) carries
`data-state = 'open'` when `context.open` is true and `'closed'` when it is
false; and whenever children is not a valid React element (so in particular
when `asChild` is true but children is plain text) the `<button>` branch is
rendered. -/
theorem TooltipTrigger_data_state {FC : Type} (context : TooltipCtxVal FC)
    (children : ReactNode) (asChild : Bool) (props : JsObj) (refVal : JsVal)
    (hch : children ≠ ReactNode.nullish)
    (hpres : ∀ o : JsObj,
      objGet (context.getReferenceProps o) "data-state" = objGet o "data-state")
    (hprops : objGet props "data-state" = none) :
    ((TooltipTrigger (some context) children asChild props refVal).map triggerDataState
      = .ok (some (.str (if context.openState then "open" else "closed"))))
    ∧ (isValidElement children = false →
        (TooltipTrigger (some context) children asChild props refVal).map isButtonRender
          = .ok true) := by
  cases children with
  | nullish => exact absurd rfl hch
  | text s =>
    cases asChild with
    | false =>
      exact ⟨congrArg Except.ok
        (triggerButtonAttrs_data_state context props refVal hpres hprops),
        fun _ => rfl⟩
    | true =>
      exact ⟨congrArg Except.ok
        (triggerButtonAttrs_data_state context props refVal hpres hprops),
        fun _ => rfl⟩
  | element r p =>
    cases asChild with
    | false =>
      exact ⟨congrArg Except.ok
        (triggerButtonAttrs_data_state context props refVal hpres hprops),
        fun h => Bool.noConfusion h⟩
    | true =>
      exact ⟨congrArg Except.ok
        (objGet_append_right _ _ _ _
          ((hpres _).trans (triggerCloneArg_data_state context (.element r p) props refVal))),
        fun h => Bool.noConfusion h⟩

/-- Witness for C7's theorem at concrete inputs. -/
theorem TooltipTrigger_data_state_witness :
    (TooltipTrigger (some openCtx) (.text "t") false [] (.str "r")).map triggerDataState
      = .ok (some (.str (if openCtx.openState then "open" else "closed"))) :=
  (TooltipTrigger_data_state openCtx (.text "t") false [] (.str "r")
    (fun h => ReactNode.noConfusion h) (fun _ => rfl) rfl).1

/-- C7 counterexample: in the button branch the spread of
`getReferenceProps(props)` comes after the `data-state` attribute, so a
caller-supplied `data-state` prop (here `'foo'`, surviving `getReferenceProps`
unchanged) overrides it: the rendered value is `'foo'`, not `'open'`, even
though `context.open` is true. -/
theorem TooltipTrigger_data_state_overridden :
    ((TooltipTrigger (some openCtx) (.text "t") false
        [("data-state", .str "foo")] (.str "r")).map triggerDataState
      = .ok (some (.str "foo")))
    ∧ openCtx.openState = true
    ∧ ("foo" : String) ≠ "open" :=
  ⟨rfl, rfl, by decide⟩

/-- C8 (amended): provided neither `props.style` nor the transition styles
define `top`/`left`, the style literal's `top` is `Math.round` of the `y`
coordinate and its `left` is `Math.round` of the `x` coordinate (halves
rounding toward `+∞`, as JS `Math.round` does), both integers, with `0` as
fallback when the respective coordinate is nullish. -/
theorem TooltipContent_top_left_rounding (strategy : String) (x y : Option ℚ)
    (ps ts : JsObj)
    (ht1 : objGet ps "top" = none) (ht2 : objGet ts "top" = none)
    (hl1 : objGet ps "left" = none) (hl2 : objGet ts "left" = none) :
    (objGet (tooltipContentStyle strategy x y ps ts) "top"
      = some (.num ((jsRound (y.getD 0) : ℤ) : ℚ)))
    ∧ (objGet (tooltipContentStyle strategy x y ps ts) "left"
      = some (.num ((jsRound (x.getD 0) : ℤ) : ℚ)))
    ∧ (objGet (tooltipContentStyle strategy x none ps ts) "top" = some (.num 0))
    ∧ (objGet (tooltipContentStyle strategy none y ps ts) "left" = some (.num 0))
    ∧ (∀ q : ℚ, ((jsRound q : ℤ) : ℚ).den = 1) := by
  have h0 : ((jsRound ((none : Option ℚ).getD 0) : ℤ) : ℚ) = 0 := by
    norm_num [jsRound]
  refine ⟨?_, ?_, ?_, ?_, fun q => Rat.den_intCast _⟩
  · unfold tooltipContentStyle
    rw [objGet_append_left _ _ _ ht2, objGet_append_left _ _ _ ht1]
    rfl
  · unfold tooltipContentStyle
    rw [objGet_append_left _ _ _ hl2, objGet_append_left _ _ _ hl1]
    rfl
  · unfold tooltipContentStyle
    rw [objGet_append_left _ _ _ ht2, objGet_append_left _ _ _ ht1]
    exact congrArg (fun v => some (JsVal.num v)) h0
  · unfold tooltipContentStyle
    rw [objGet_append_left _ _ _ hl2, objGet_append_left _ _ _ hl1]
    exact congrArg (fun v => some (JsVal.num v)) h0

/-- Witness for C8's theorem at concrete inputs. -/
theorem TooltipContent_top_left_rounding_witness :
    objGet (tooltipContentStyle "absolute" (some (7 / 2)) (some (5 / 4)) [] []) "top"
      = some (.num ((jsRound ((some (5 / 4) : Option ℚ).getD 0) : ℤ) : ℚ)) :=
  (TooltipContent_top_left_rounding "absolute" (some (7 / 2)) (some (5 / 4)) [] []
    rfl rfl rfl rfl).1

/-- C8 counterexample: a caller-supplied `props.style` of `{top: 1.5}` is
spread after the base entries, so the rendered `top` is `1.5` — neither
`Math.round(y)` (which is `1` for `y = 5/4`) nor an integer. -/
theorem TooltipContent_top_overridden :
    ((TooltipContent alwaysMounted sampleDgc "id2" (some plainCtx)
        [("style", .obj [("top", .num (3 / 2))])]).map renderedStyle
      = .ok (some (.obj (tooltipContentStyle "absolute" (some (7 / 2)) (some (5 / 4))
          [("top", .num (3 / 2))] []))))
    ∧ (objGet (tooltipContentStyle "absolute" (some (7 / 2)) (some (5 / 4))
        [("top", .num (3 / 2))] []) "top" = some (.num (3 / 2)))
    ∧ ((3 / 2 : ℚ) ≠ ((jsRound (5 / 4) : ℤ) : ℚ))
    ∧ ((3 / 2 : ℚ).den ≠ 1) :=
  ⟨rfl, rfl, by norm_num [jsRound], by norm_num⟩

end FloatingTooltip
